import Mathlib

/-!
# osutil: distribution detection, package-manager adapters, group helper

A shallow embedding of

* `distro.go` (`Distro`, `idToDistro`, `DetectDistro`, `DetectDistroVer`),
* `pkg/p_pacman.go`, `pkg/p_rpm.go` (the `pacman` and `rpm` adapters),
* `v2/sysutil/pkg/dis_debian.go` (the `ManagerDeb` adapter),
* `user/cmd_group.go` (`AddGroupFromCmd`).

Go functions returning `(T, error)` become functions returning `T × Option Error`
(`none` is the `nil` error).  Code that talks to the operating system threads an
explicit `World` (the files that exist, with their content, and the trace of
external processes started so far) and reads the outcome of every external
process or fallible file operation from an `Env` of oracles.
-/

namespace Osutil

/-- Go `error` values are represented by their message. -/
abbrev Error := String

/-- Result of a Go call that may abort with a run-time panic instead of returning. -/
inductive Outcome (α : Type) where
  | returned : α → Outcome α
  | panicked : String → Outcome α
  deriving DecidableEq, Repr

/-! ## distro.go -/

/-- Go `type Distro int` with its `iota` constants; `DistroUnknown` is the value `0`. -/
inductive Distro where
  | DistroUnknown
  | Debian
  | Ubuntu
  | Fedora
  | CentOS
  | OpenSUSE
  | Arch
  | Manjaro
  deriving DecidableEq, Repr

open Distro (DistroUnknown Debian Ubuntu Fedora CentOS OpenSUSE Arch Manjaro)

/-- The array `distroNames`, indexed by the tag. -/
def distroNames : Distro → String
  | DistroUnknown => "unknown distribution"
  | Debian => "Debian"
  | Ubuntu => "Ubuntu"
  | Fedora => "Fedora"
  | CentOS => "CentOS"
  | OpenSUSE => "openSUSE"
  | Arch => "Arch"
  | Manjaro => "Manjaro"

/-- The method `func (s Distro) String() string`. -/
def Distro.String (s : Distro) : String := distroNames s

/-- The map literal `idToDistro`, as its list of key/value entries (keys are distinct). -/
def idToDistro : List (String × Distro) :=
  [ ("debian", Debian),
    ("ubuntu", Ubuntu),
    ("centos", CentOS),
    ("fedora", Fedora),
    ("opensuse-leap", OpenSUSE),
    ("opensuse-tumbleweed", OpenSUSE),
    ("arch", Arch),
    ("manjaro", Manjaro) ]

/-- Modelled from the spec: the type `shconf.Config` (package `config/shconf`, not among
the sources): a parsed key/value configuration, here the finite map from keys to values. -/
structure Config where
  data : String → Option String

/-- Modelled from the spec: the error `shconf` reports for a key that is not in the
configuration ("fails if the ... field is missing"). -/
def ErrKey : Error := "key not found"

/-- Modelled from the spec: the method `shconf.Config.Get` (not among the sources): the value
stored under the key, and an error when the field is missing. -/
def Config.Get (cfg : Config) (key : String) : String × Option Error :=
  match cfg.data key with
  | some value => (value, none)
  | none => ("", some ErrKey)

/-- What `os.Stat` and `shconf.ParseFile` observe of `/etc/os-release`:
the file does not exist (`os.IsNotExist`), parsing it fails, or it parses to a configuration. -/
inductive OsRelease where
  | absent
  | unparsable (err : Error)
  | parsed (cfg : Config)

/-- The function `DetectDistro`. -/
def DetectDistro (f : OsRelease) : Distro × Option Error :=
  match f with
  | .absent => (DistroUnknown, none)
  | .unparsable err => (DistroUnknown, some err)
  | .parsed cfg =>
    match cfg.Get "ID" with
    | (_, some err) => (DistroUnknown, some err)
    | (id, none) =>
      match idToDistro.lookup id with
      | some v => (v, none)
      | none => (DistroUnknown, none)

/-- The function `DetectDistroVer`. -/
def DetectDistroVer (f : OsRelease) : String × Option Error :=
  match f with
  | .absent => ("", some (Distro.String DistroUnknown))
  | .unparsable err => ("", some err)
  | .parsed cfg =>
    match cfg.Get "VERSION_ID" with
    | (_, some err) => ("", some err)
    | (ver, none) => (ver, none)

/-- A configuration given by a finite list of entries, for concrete examples. -/
def Config.ofList (entries : List (String × String)) : Config :=
  ⟨fun key => entries.lookup key⟩

/-! ## The operating system seen by the adapters -/

/-- One external process invocation: the binary and its argument list. -/
structure Invocation where
  path : String
  args : List String
  deriving DecidableEq, Repr

/-- What a finished external process hands back: its captured output streams
(`none` is the `nil` byte slice) and its failure. -/
structure ExecResult where
  stdout : Option String
  stderr : Option String
  err : Option Error
  deriving DecidableEq, Repr

/-- The explicit state: the files that exist (path to content) and the trace of the
external processes started so far, oldest first. -/
structure World where
  files : String → Option String
  procs : List Invocation

/-- Oracles for everything the code does not decide itself: the outcome of an external
process, an injected failure of a file creation or removal, and the function
`executil.CheckStderr` (not among the sources), taken as a parameter.  A failing file
creation comes with what it leaves at the path: `none` when the path is as it was,
`some c` when the file was created or truncated and holds `c`.  The external
processes of the modelled methods (`apt-get`, `yum`, `pacman`, `paccache`, `usermod`) are
observed through their result only. -/
structure Env where
  exec : World → Invocation → ExecResult
  createErr : World → String → String → Option (Error × Option String)
  removeErr : World → String → Option Error
  CheckStderr : Option String → Option Error → Option Error

/-- Whether a path exists in the file system of the world. -/
def World.fileExists (w : World) (p : String) : Bool := (w.files p).isSome

/-- The world after the named file was created with the given content. -/
def World.write (w : World) (name content : String) : World :=
  { w with files := fun p => if p = name then some content else w.files p }

/-- The world after the named file was removed. -/
def World.delete (w : World) (name : String) : World :=
  { w with files := fun p => if p = name then none else w.files p }

/-- The world after one more external process was started. -/
def World.started (w : World) (inv : Invocation) : World :=
  { w with procs := w.procs ++ [inv] }

/-- Start one external process: it is appended to the trace and its result is read
from the oracle. -/
def World.run (env : Env) (w : World) (inv : Invocation) : World × ExecResult :=
  (w.started inv, env.exec w inv)

/-- Modelled from the spec: `sh.ExecToStd` (package `sh`, not among the sources): runs one
external command and returns the command's failure. -/
def ExecToStd (env : Env) (w : World) (path : String) (args : List String) :
    World × Option Error :=
  let r := w.run env ⟨path, args⟩
  (r.1, r.2.err)

/-- Modelled from the spec: `sh.Exec` (package `sh`, not among the sources): runs one external
command and returns its standard output, standard error and failure. -/
def Exec (env : Env) (w : World) (path : String) (args : List String) :
    World × ExecResult :=
  w.run env ⟨path, args⟩

/-- Modelled from the spec: `executil.Command.Run` (package `executil`, not among the
sources): runs one external command and returns the command's failure. -/
def Run (env : Env) (w : World) (path : String) (args : List String) :
    World × Option Error :=
  let r := w.run env ⟨path, args⟩
  (r.1, r.2.err)

/-- Modelled from the spec: `executil.Command.OutputStderr` (package `executil`, not among
the sources): runs one external command and returns its standard error and failure. -/
def OutputStderr (env : Env) (w : World) (path : String) (args : List String) :
    World × Option String × Option Error :=
  let r := w.run env ⟨path, args⟩
  (r.1, r.2.stderr, r.2.err)

/-- Modelled from the spec: `fileutil.CreateFromString` (package `fileutil`, not among the
sources): creates the named file with the given content, or fails with a file-system
error.  The spec does not say what a failed creation leaves behind, so the oracle
decides it: the path as it was, or the file created or truncated, holding what was
written before the failure. -/
def CreateFromString (env : Env) (w : World) (filename s : String) : World × Option Error :=
  match env.createErr w filename s with
  | some (err, none) => (w, some err)
  | some (err, some left) => (w.write filename left, some err)
  | none => (w.write filename s, none)

/-- Go `os.Remove`: removes the named file; fails when the file does not exist or when
the file system refuses. -/
def osRemove (env : Env) (w : World) (name : String) : World × Option Error :=
  match env.removeErr w name with
  | some err => (w, some err)
  | none =>
    if w.fileExists name then
      (w.delete name, none)
    else
      (w, some ("remove " ++ name ++ ": no such file or directory"))

/-! ## pkg/p_pacman.go -/

namespace pacman

/-- The method `pacman.Install`. -/
def Install (env : Env) (w : World) (name : List String) : World × Option Error :=
  let args := ["-S", "--needed", "--noprogressbar"]
  ExecToStd env w "/usr/bin/pacman" (args ++ name)

/-- The method `pacman.Remove`. -/
def Remove (env : Env) (w : World) (name : List String) : World × Option Error :=
  let args := ["-Rs"]
  ExecToStd env w "/usr/bin/pacman" (args ++ name)

/-- The method `pacman.Purge`. -/
def Purge (env : Env) (w : World) (name : List String) : World × Option Error :=
  let args := ["-Rsn"]
  ExecToStd env w "/usr/bin/pacman" (args ++ name)

/-- The method `pacman.Update`. -/
def Update (env : Env) (w : World) : World × Option Error :=
  ExecToStd env w "/usr/bin/pacman" ["-Syu", "--needed", "--noprogressbar"]

/-- The method `pacman.Upgrade`. -/
def Upgrade (env : Env) (w : World) : World × Option Error :=
  ExecToStd env w "/usr/bin/pacman" ["-Syu"]

/-- The method `pacman.Clean`. -/
def Clean (env : Env) (w : World) : World × Option Error :=
  ExecToStd env w "/usr/bin/paccache" ["-r"]

end pacman

/-! ## pkg/p_rpm.go -/

namespace rpm

/-- The method `rpm.Install`. -/
def Install (env : Env) (w : World) (name : List String) : World × Option Error :=
  let args := ["install"]
  ExecToStd env w "/usr/bin/yum" (args ++ name)

/-- The method `rpm.Remove`. -/
def Remove (env : Env) (w : World) (name : List String) : World × Option Error :=
  let args := ["remove"]
  ExecToStd env w "/usr/bin/yum" (args ++ name)

/-- The method `rpm.Purge`. -/
def Purge (env : Env) (w : World) (name : List String) : World × Option Error :=
  Remove env w name

/-- The method `rpm.Update`. -/
def Update (env : Env) (w : World) : World × Option Error :=
  ExecToStd env w "/usr/bin/yum" ["update"]

/-- The method `rpm.Upgrade`. -/
def Upgrade (env : Env) (w : World) : World × Option Error :=
  ExecToStd env w "/usr/bin/yum" ["update"]

/-- The method `rpm.Clean`. -/
def Clean (env : Env) (w : World) : World × Option Error :=
  ExecToStd env w "/usr/bin/yum" ["clean", "packages"]

end rpm

/-! ## v2/sysutil/pkg/dis_debian.go

Writes to the logger `osutil.Log` are not part of the model. -/

/-- The constant `pathDeb`. -/
def pathDeb : String := "/usr/bin/apt-get"

/-- The struct `ManagerDeb`; the command template `cmd` (environment, bad exit codes) is
part of the process oracle. -/
structure ManagerDeb where
  pathExec : String

namespace ManagerDeb

/-- The method `ManagerDeb.keyring`. -/
def keyring (_m : ManagerDeb) (alias_ : String) : String :=
  "/usr/share/keyrings/" ++ alias_ ++ "-archive-keyring.gpg"

/-- The method `ManagerDeb.repository`. -/
def repository (_m : ManagerDeb) (alias_ : String) : String :=
  "/etc/apt/sources.list.d/" ++ alias_ ++ ".list"

/-- The method `ManagerDeb.Install`. -/
def Install (_m : ManagerDeb) (env : Env) (w : World) (name : List String) :
    World × Option Error :=
  let args := ["install", "-y"] ++ name
  Run env w pathDeb args

/-- The method `ManagerDeb.Remove`. -/
def Remove (_m : ManagerDeb) (env : Env) (w : World) (name : List String) :
    World × Option Error :=
  let args := ["remove", "-y"] ++ name
  Run env w pathDeb args

/-- The method `ManagerDeb.Purge`. -/
def Purge (_m : ManagerDeb) (env : Env) (w : World) (name : List String) :
    World × Option Error :=
  let args := ["purge", "-y"] ++ name
  Run env w pathDeb args

/-- The method `ManagerDeb.UpdateIndex`. -/
def UpdateIndex (_m : ManagerDeb) (env : Env) (w : World) : World × Option Error :=
  let r := OutputStderr env w pathDeb ["update", "-qq"]
  (r.1, env.CheckStderr r.2.1 r.2.2)

/-- The method `ManagerDeb.Update`. -/
def Update (_m : ManagerDeb) (env : Env) (w : World) : World × Option Error :=
  Run env w pathDeb ["upgrade", "-y"]

/-- The method `ManagerDeb.Clean`. -/
def Clean (_m : ManagerDeb) (env : Env) (w : World) : World × Option Error :=
  match Run env w pathDeb ["autoremove", "-y"] with
  | (w1, some err) => (w1, some err)
  | (w1, none) => Run env w1 pathDeb ["clean"]

/-- The method `ManagerDeb.AddRepo`; the read `url[0]` of an empty list is the Go
run-time panic "index out of range", raised while the arguments of
`CreateFromString` are evaluated. -/
def AddRepo (m : ManagerDeb) (env : Env) (w : World) (alias_ : String) (url : List String) :
    World × Outcome (Option Error) :=
  match url[0]? with
  | none => (w, .panicked "runtime error: index out of range [0] with length 0")
  | some url0 =>
    match CreateFromString env w (m.repository alias_)
        ("deb [signed-by=" ++ m.keyring alias_ ++ "] " ++ url0 ++ " main/\n") with
    | (w1, some err) => (w1, .returned (some err))
    | (w1, none) =>
      let r := m.UpdateIndex env w1
      (r.1, .returned r.2)

/-- The method `ManagerDeb.RemoveRepo`. -/
def RemoveRepo (m : ManagerDeb) (env : Env) (w : World) (alias_ : String) :
    World × Option Error :=
  match osRemove env w (m.keyring alias_) with
  | (w1, some err) => (w1, some err)
  | (w1, none) =>
    match osRemove env w1 (m.repository alias_) with
    | (w2, some err) => (w2, some err)
    | (w2, none) => m.UpdateIndex env w2

end ManagerDeb

/-! ## user/cmd_group.go -/

/-- Modelled from the spec: the enumeration `sys.System` (package `sys`, not among the
sources): Linux, or an unsupported operating system with its display name. -/
inductive System where
  | SysLinux
  | SysOther (name : String)
  deriving DecidableEq, Repr

/-- The method `String` of `sys.System`. -/
def System.String : System → String
  | .SysLinux => "Linux"
  | .SysOther name => name

/-- Go `user.Group`. -/
structure Group where
  Gid : String
  Name : String
  deriving DecidableEq, Repr

/-- Go `user.User`. -/
structure User where
  Uid : String
  Gid : String
  Username : String
  deriving DecidableEq, Repr

/-- The account data base and helpers read by `AddGroupFromCmd`: `RealUser` (package
`user` of the repository, not among the sources, taken as a parameter), Go's
`user.LookupGroup`, `user.Lookup`, `(*User).GroupIds`, and the `%q` verb of `fmt`. -/
structure UserEnv where
  RealUser : System → Except Error String
  LookupGroup : String → Except Error Group
  Lookup : String → Except Error User
  GroupIds : User → Except Error (List String)
  quote : String → String

/-- The membership loop of `AddGroupFromCmd`: `found` after ranging over `groups`. -/
def foundGid (gid : String) : List String → Bool
  | [] => false
  | v :: rest => if v = gid then true else foundGid gid rest

/-- The function `AddGroupFromCmd`. -/
def AddGroupFromCmd (env : Env) (db : UserEnv) (w : World) (sys_ : System) (group : String) :
    World × Outcome (String × Option Error) :=
  match sys_ with
  | .SysOther _ => (w, .panicked ("unimplemented: " ++ sys_.String))
  | .SysLinux =>
    match db.RealUser sys_ with
    | .error err => (w, .returned ("", some err))
    | .ok username =>
      match db.LookupGroup group with
      | .error err => (w, .returned ("", some err))
      | .ok grp =>
        let gid := grp.Gid
        match db.Lookup username with
        | .error err => (w, .returned ("", some err))
        | .ok usr =>
          match db.GroupIds usr with
          | .error err => (w, .returned ("", some err))
          | .ok groups =>
            if foundGid gid groups then
              (w, .returned ("", none))
            else
              match Exec env w "usermod" ["-aG", group, usr.Username] with
              | (w1, ⟨_, some stderr, _⟩) => (w1, .returned ("", some stderr))
              | (w1, ⟨_, none, some err⟩) => (w1, .returned ("", some err))
              | (w1, ⟨_, none, none⟩) =>
                let msg := "the user " ++ db.quote username ++ " has been added to the group "
                  ++ db.quote group ++ ".\nYou MUST reboot the system.\n"
                (w1, .returned (msg, none))

/-! ## Concrete environments for examples -/

/-- An environment in which every external process and file operation succeeds. -/
def okEnv : Env :=
  { exec := fun _ _ => ⟨none, none, none⟩
    createErr := fun _ _ _ => none
    removeErr := fun _ _ => none
    CheckStderr := fun stderr err =>
      match stderr with
      | some s => some s
      | none => err }

/-- An environment in which every external process exits with a failure. -/
def failEnv : Env :=
  { okEnv with exec := fun _ _ => ⟨none, none, some "exit status 1"⟩ }

/-- An environment in which the file system refuses every creation and removal. -/
def roEnv : Env :=
  { okEnv with
    createErr := fun _ _ _ => some ("read-only file system", none)
    removeErr := fun _ _ => some "read-only file system" }

/-- An environment in which every file creation opens (creates or truncates) the file
and then fails to write to it. -/
def fullDiskEnv : Env :=
  { okEnv with createErr := fun _ _ _ => some ("no space left on device", some "") }

/-- The world with no files and no process started. -/
def emptyWorld : World := ⟨fun _ => none, []⟩

/-- The world whose only file is the keyring file of the alias `x`. -/
def keyringWorld : World :=
  emptyWorld.write "/usr/share/keyrings/x-archive-keyring.gpg" "key"

/-- The world holding the keyring file and the `.list` file of the alias `x`. -/
def repoWorld : World :=
  keyringWorld.write "/etc/apt/sources.list.d/x.list" "deb"

/-- An account data base with the user `alice` (groups `100`, `27`) and the groups
`sudo` (gid `27`) and `docker` (gid `999`); `%q` wraps a plain name in double quotes. -/
def aliceDb : UserEnv :=
  { RealUser := fun _ => .ok "alice"
    LookupGroup := fun g =>
      if g = "sudo" then .ok ⟨"27", "sudo"⟩
      else if g = "docker" then .ok ⟨"999", "docker"⟩
      else .error ("group: unknown group " ++ g)
    Lookup := fun u =>
      if u = "alice" then .ok ⟨"1000", "100", "alice"⟩
      else .error ("user: unknown user " ++ u)
    GroupIds := fun _ => .ok ["100", "27"]
    quote := fun s => String.singleton (Char.ofNat 34) ++ s ++ String.singleton (Char.ofNat 34) }

/-! ## Specification predicates -/

/-- The call that led from world `w` to the result `r` started exactly one external
process, `inv`, and returned that process's failure as its error. -/
def runsOne (env : Env) (w : World) (r : World × Option Error) (inv : Invocation) : Prop :=
  r.1.procs = w.procs ++ [inv] ∧ r.2 = (env.exec w inv).err

/-- The call that led from world `w` to the result `r` started exactly one external
process: the binary `path` with the fixed flags followed by the given names. -/
def invokes (w : World) (r : World × Option Error) (path : String)
    (flags name : List String) : Prop :=
  ∃ inv : Invocation, r.1.procs = w.procs ++ [inv] ∧ inv.path = path ∧
    inv.args = flags ++ name ∧ inv.args.length = flags.length + name.length

/-- The line `AddRepo` formats for the `.list` file. -/
def repoLine (m : ManagerDeb) (alias_ url0 : String) : String :=
  "deb [signed-by=" ++ m.keyring alias_ ++ "] " ++ url0 ++ " main/\n"

/-! ## Detection -/

theorem lookup_eq_none_of_not_key {β : Type} (id : String) :
    ∀ l : List (String × β), id ∉ l.map Prod.fst → l.lookup id = none
  | [], _ => rfl
  | (k, v) :: rest, h => by
    have hk : id ≠ k := fun e => h (by simp [e])
    have hr : id ∉ rest.map Prod.fst := fun e => h (by simp at e ⊢; exact Or.inr e)
    have : (id == k) = false := by simpa using hk
    simp [List.lookup, this, lookup_eq_none_of_not_key id rest hr]

/-- C1: `DetectDistro` returns with no error `DistroUnknown` when `/etc/os-release` does
not exist, the tag `idToDistro` maps the `ID` value to when that value is a key of the
table (the eight entries being the documented ones), and `DistroUnknown` when the `ID`
value is present but is not a key of the table. -/
theorem DetectDistro_spec :
    DetectDistro .absent = (DistroUnknown, none) ∧
    (∀ (cfg : Config) (id : String) (v : Distro), cfg.data "ID" = some id →
      idToDistro.lookup id = some v → DetectDistro (.parsed cfg) = (v, none)) ∧
    (idToDistro.map Prod.fst = ["debian", "ubuntu", "centos", "fedora", "opensuse-leap",
        "opensuse-tumbleweed", "arch", "manjaro"] ∧
      idToDistro.lookup "debian" = some Debian ∧
      idToDistro.lookup "ubuntu" = some Ubuntu ∧
      idToDistro.lookup "centos" = some CentOS ∧
      idToDistro.lookup "fedora" = some Fedora ∧
      idToDistro.lookup "opensuse-leap" = some OpenSUSE ∧
      idToDistro.lookup "opensuse-tumbleweed" = some OpenSUSE ∧
      idToDistro.lookup "arch" = some Arch ∧
      idToDistro.lookup "manjaro" = some Manjaro) ∧
    (∀ (cfg : Config) (id : String), cfg.data "ID" = some id →
      id ∉ idToDistro.map Prod.fst → DetectDistro (.parsed cfg) = (DistroUnknown, none)) := by
  refine ⟨rfl, ?_, ?_, ?_⟩
  · intro cfg id v hid hv
    simp [DetectDistro, Config.Get, hid, hv]
  · decide
  · intro cfg id hid hk
    simp [DetectDistro, Config.Get, hid, lookup_eq_none_of_not_key id idToDistro hk]

/-- Witness of C1: an `ID` of the table (`ubuntu`) and one outside it (`gentoo`). -/
theorem DetectDistro_spec_witness :
    (Config.ofList [("ID", "ubuntu")]).data "ID" = some "ubuntu" ∧
    idToDistro.lookup "ubuntu" = some Ubuntu ∧
    DetectDistro (.parsed (Config.ofList [("ID", "ubuntu")])) = (Ubuntu, none) ∧
    (Config.ofList [("ID", "gentoo")]).data "ID" = some "gentoo" ∧
    "gentoo" ∉ idToDistro.map Prod.fst ∧
    DetectDistro (.parsed (Config.ofList [("ID", "gentoo")])) = (DistroUnknown, none) :=
  ⟨by decide, by decide,
    DetectDistro_spec.2.1 (Config.ofList [("ID", "ubuntu")]) "ubuntu" Ubuntu
      (by decide) (by decide),
    by decide, by decide,
    DetectDistro_spec.2.2.2 (Config.ofList [("ID", "gentoo")]) "gentoo"
      (by decide) (by decide)⟩

/-- C2, refuted as stated: an `/etc/os-release` that parses but has no `ID` key makes
`DetectDistro` fail with the error of the lookup, whereas an unmapped `ID` gives
`DistroUnknown` with no error. -/
theorem missing_ID_key_counterexample :
    (Config.ofList [("NAME", "Gentoo")]).data "ID" = none ∧
    (DetectDistro (.parsed (Config.ofList [("NAME", "Gentoo")]))).2 = some ErrKey ∧
    DetectDistro (.parsed (Config.ofList [("NAME", "Gentoo")])) ≠
      DetectDistro (.parsed (Config.ofList [("ID", "gentoo")])) := by
  decide

/-- C2, amended: for every `/etc/os-release` that parses but has no `ID` key,
`DetectDistro` fails: it returns the error of the `ID` lookup, together with the zero
tag `DistroUnknown`. -/
theorem DetectDistro_missing_ID :
    ∀ cfg : Config, cfg.data "ID" = none →
      DetectDistro (.parsed cfg) = (DistroUnknown, some ErrKey) ∧
      (DetectDistro (.parsed cfg)).2 = (cfg.Get "ID").2 ∧
      (DetectDistro (.parsed cfg)).2 ≠ none := by
  intro cfg h
  simp [DetectDistro, Config.Get, h]

/-- Witness of the amended C2: a configuration holding only `NAME`. -/
theorem DetectDistro_missing_ID_witness :
    (Config.ofList [("NAME", "Gentoo")]).data "ID" = none ∧
    DetectDistro (.parsed (Config.ofList [("NAME", "Gentoo")])) =
      (DistroUnknown, some ErrKey) :=
  ⟨by decide,
    (DetectDistro_missing_ID (Config.ofList [("NAME", "Gentoo")]) (by decide)).1⟩

/-- C8: `DetectDistroVer` fails with the empty string when `/etc/os-release` does not
exist, when it does not parse, or when it has no `VERSION_ID` key, and otherwise returns
the `VERSION_ID` value exactly as the configuration holds it, with no error. -/
theorem DetectDistroVer_spec :
    DetectDistroVer .absent = ("", some "unknown distribution") ∧
    (∀ err : Error, DetectDistroVer (.unparsable err) = ("", some err)) ∧
    (∀ cfg : Config, cfg.data "VERSION_ID" = none →
      DetectDistroVer (.parsed cfg) = ("", some ErrKey)) ∧
    (∀ (cfg : Config) (ver : String), cfg.data "VERSION_ID" = some ver →
      DetectDistroVer (.parsed cfg) = (ver, none)) := by
  refine ⟨rfl, fun _ => rfl, ?_, ?_⟩
  · intro cfg h
    simp [DetectDistroVer, Config.Get, h]
  · intro cfg ver h
    simp [DetectDistroVer, Config.Get, h]

/-- Witness of C8: a configuration without `VERSION_ID` and one holding `22.04`. -/
theorem DetectDistroVer_spec_witness :
    (Config.ofList [("ID", "ubuntu")]).data "VERSION_ID" = none ∧
    DetectDistroVer (.parsed (Config.ofList [("ID", "ubuntu")])) = ("", some ErrKey) ∧
    (Config.ofList [("VERSION_ID", "22.04")]).data "VERSION_ID" = some "22.04" ∧
    DetectDistroVer (.parsed (Config.ofList [("VERSION_ID", "22.04")])) = ("22.04", none) :=
  ⟨by decide,
    DetectDistroVer_spec.2.2.1 (Config.ofList [("ID", "ubuntu")]) (by decide),
    by decide,
    DetectDistroVer_spec.2.2.2 (Config.ofList [("VERSION_ID", "22.04")]) "22.04"
      (by decide)⟩

/-! ## Argument lists and process traces of the adapters -/

/-- C3: for every adapter and every list of package names, `Install`, `Remove` and `Purge`
start the adapter's own binary with exactly the fixed flags followed by the given names,
in order and unchanged; the argument list has length (number of flags + number of
names), and `rpm.Purge` builds the same command as `rpm.Remove`. -/
theorem install_remove_purge_args (env : Env) (w : World) (m : ManagerDeb)
    (name : List String) :
    invokes w (pacman.Install env w name) "/usr/bin/pacman"
      ["-S", "--needed", "--noprogressbar"] name ∧
    invokes w (pacman.Remove env w name) "/usr/bin/pacman" ["-Rs"] name ∧
    invokes w (pacman.Purge env w name) "/usr/bin/pacman" ["-Rsn"] name ∧
    invokes w (rpm.Install env w name) "/usr/bin/yum" ["install"] name ∧
    invokes w (rpm.Remove env w name) "/usr/bin/yum" ["remove"] name ∧
    invokes w (rpm.Purge env w name) "/usr/bin/yum" ["remove"] name ∧
    invokes w (m.Install env w name) "/usr/bin/apt-get" ["install", "-y"] name ∧
    invokes w (m.Remove env w name) "/usr/bin/apt-get" ["remove", "-y"] name ∧
    invokes w (m.Purge env w name) "/usr/bin/apt-get" ["purge", "-y"] name ∧
    rpm.Purge env w name = rpm.Remove env w name := by
  refine ⟨⟨_, rfl, rfl, rfl, ?_⟩, ⟨_, rfl, rfl, rfl, ?_⟩, ⟨_, rfl, rfl, rfl, ?_⟩,
    ⟨_, rfl, rfl, rfl, ?_⟩, ⟨_, rfl, rfl, rfl, ?_⟩, ⟨_, rfl, rfl, rfl, ?_⟩,
    ⟨_, rfl, rfl, rfl, ?_⟩, ⟨_, rfl, rfl, rfl, ?_⟩, ⟨_, rfl, rfl, rfl, ?_⟩, rfl⟩ <;>
  exact List.length_append _ _

/-- C4, refuted as stated: when `apt-get autoremove -y` succeeds, one call of
`ManagerDeb.Clean` starts two external processes. -/
theorem deb_clean_two_commands_counterexample :
    ((ManagerDeb.mk pathDeb).Clean okEnv emptyWorld).1.procs =
      [⟨"/usr/bin/apt-get", ["autoremove", "-y"]⟩, ⟨"/usr/bin/apt-get", ["clean"]⟩] ∧
    ((ManagerDeb.mk pathDeb).Clean okEnv emptyWorld).1.procs.length ≠ 1 := by
  decide

/-- C4, amended: every method of the capability set of `pacman`, `rpm` and `ManagerDeb`
other than `ManagerDeb.Clean` starts exactly one external process per call and returns
that process's failure (`ManagerDeb.UpdateIndex` returns what `CheckStderr` makes of the
process's standard error and failure).  `ManagerDeb.Clean` starts `apt-get autoremove -y`
and returns its failure if it fails; otherwise it also starts `apt-get clean` and returns
the failure of that second process. -/
theorem one_command_per_call (env : Env) (w : World) (m : ManagerDeb) (name : List String) :
    runsOne env w (pacman.Install env w name)
      ⟨"/usr/bin/pacman", ["-S", "--needed", "--noprogressbar"] ++ name⟩ ∧
    runsOne env w (pacman.Remove env w name) ⟨"/usr/bin/pacman", ["-Rs"] ++ name⟩ ∧
    runsOne env w (pacman.Purge env w name) ⟨"/usr/bin/pacman", ["-Rsn"] ++ name⟩ ∧
    runsOne env w (pacman.Update env w)
      ⟨"/usr/bin/pacman", ["-Syu", "--needed", "--noprogressbar"]⟩ ∧
    runsOne env w (pacman.Upgrade env w) ⟨"/usr/bin/pacman", ["-Syu"]⟩ ∧
    runsOne env w (pacman.Clean env w) ⟨"/usr/bin/paccache", ["-r"]⟩ ∧
    runsOne env w (rpm.Install env w name) ⟨"/usr/bin/yum", ["install"] ++ name⟩ ∧
    runsOne env w (rpm.Remove env w name) ⟨"/usr/bin/yum", ["remove"] ++ name⟩ ∧
    runsOne env w (rpm.Purge env w name) ⟨"/usr/bin/yum", ["remove"] ++ name⟩ ∧
    runsOne env w (rpm.Update env w) ⟨"/usr/bin/yum", ["update"]⟩ ∧
    runsOne env w (rpm.Upgrade env w) ⟨"/usr/bin/yum", ["update"]⟩ ∧
    runsOne env w (rpm.Clean env w) ⟨"/usr/bin/yum", ["clean", "packages"]⟩ ∧
    runsOne env w (m.Install env w name) ⟨"/usr/bin/apt-get", ["install", "-y"] ++ name⟩ ∧
    runsOne env w (m.Remove env w name) ⟨"/usr/bin/apt-get", ["remove", "-y"] ++ name⟩ ∧
    runsOne env w (m.Purge env w name) ⟨"/usr/bin/apt-get", ["purge", "-y"] ++ name⟩ ∧
    runsOne env w (m.Update env w) ⟨"/usr/bin/apt-get", ["upgrade", "-y"]⟩ ∧
    ((m.UpdateIndex env w).1.procs = w.procs ++ [⟨"/usr/bin/apt-get", ["update", "-qq"]⟩] ∧
      (m.UpdateIndex env w).2 =
        env.CheckStderr (env.exec w ⟨"/usr/bin/apt-get", ["update", "-qq"]⟩).stderr
          (env.exec w ⟨"/usr/bin/apt-get", ["update", "-qq"]⟩).err) ∧
    ((env.exec w ⟨"/usr/bin/apt-get", ["autoremove", "-y"]⟩).err ≠ none →
      runsOne env w (m.Clean env w) ⟨"/usr/bin/apt-get", ["autoremove", "-y"]⟩) ∧
    ((env.exec w ⟨"/usr/bin/apt-get", ["autoremove", "-y"]⟩).err = none →
      (m.Clean env w).1.procs = w.procs ++
        [⟨"/usr/bin/apt-get", ["autoremove", "-y"]⟩, ⟨"/usr/bin/apt-get", ["clean"]⟩] ∧
      (m.Clean env w).2 =
        (env.exec (w.started ⟨"/usr/bin/apt-get", ["autoremove", "-y"]⟩)
          ⟨"/usr/bin/apt-get", ["clean"]⟩).err) := by
  refine ⟨⟨rfl, rfl⟩, ⟨rfl, rfl⟩, ⟨rfl, rfl⟩, ⟨rfl, rfl⟩, ⟨rfl, rfl⟩, ⟨rfl, rfl⟩,
    ⟨rfl, rfl⟩, ⟨rfl, rfl⟩, ⟨rfl, rfl⟩, ⟨rfl, rfl⟩, ⟨rfl, rfl⟩, ⟨rfl, rfl⟩,
    ⟨rfl, rfl⟩, ⟨rfl, rfl⟩, ⟨rfl, rfl⟩, ⟨rfl, rfl⟩, ⟨rfl, rfl⟩, ?_, ?_⟩
  · intro h
    obtain ⟨e, he⟩ := Option.ne_none_iff_exists'.mp h
    simp [runsOne, ManagerDeb.Clean, Run, World.run, World.started, pathDeb, he]
  · intro h
    simp [ManagerDeb.Clean, Run, World.run, World.started, pathDeb, h]

/-- Witness of the amended C4: `ManagerDeb.Clean` where every process fails (one process)
and where every process succeeds (two processes). -/
theorem one_command_per_call_witness :
    (failEnv.exec emptyWorld ⟨"/usr/bin/apt-get", ["autoremove", "-y"]⟩).err ≠ none ∧
    runsOne failEnv emptyWorld ((ManagerDeb.mk pathDeb).Clean failEnv emptyWorld)
      ⟨"/usr/bin/apt-get", ["autoremove", "-y"]⟩ ∧
    (okEnv.exec emptyWorld ⟨"/usr/bin/apt-get", ["autoremove", "-y"]⟩).err = none ∧
    ((ManagerDeb.mk pathDeb).Clean okEnv emptyWorld).1.procs = [] ++
      [⟨"/usr/bin/apt-get", ["autoremove", "-y"]⟩, ⟨"/usr/bin/apt-get", ["clean"]⟩] :=
  ⟨by decide,
    (one_command_per_call failEnv emptyWorld (ManagerDeb.mk pathDeb) []).2.2.2.2.2.2.2.2.2.2.2.2.2.2.2.2.2.1
      (by decide),
    by decide,
    ((one_command_per_call okEnv emptyWorld (ManagerDeb.mk pathDeb) []).2.2.2.2.2.2.2.2.2.2.2.2.2.2.2.2.2.2
      (by decide)).1⟩

/-! ## Repository files of the Debian adapter -/

theorem keyring_ne_repository (m : ManagerDeb) (alias_ : String) :
    m.keyring alias_ ≠ m.repository alias_ := by
  intro h
  have := congrArg String.data h
  simp [ManagerDeb.keyring, ManagerDeb.repository, String.data_append] at this

theorem CreateFromString_ok (env : Env) (w : World) (f s : String)
    (h : env.createErr w f s = none) :
    CreateFromString env w f s = (w.write f s, none) := by
  simp [CreateFromString, h]

theorem CreateFromString_err (env : Env) (w : World) (f s : String) (e : Error)
    (h : env.createErr w f s = some (e, none)) :
    CreateFromString env w f s = (w, some e) := by
  simp [CreateFromString, h]

theorem CreateFromString_left (env : Env) (w : World) (f s : String) (e : Error)
    (left : String) (h : env.createErr w f s = some (e, some left)) :
    CreateFromString env w f s = (w.write f left, some e) := by
  simp [CreateFromString, h]

theorem CreateFromString_procs (env : Env) (w : World) (f s : String) :
    (CreateFromString env w f s).1.procs = w.procs := by
  cases h : env.createErr w f s with
  | none => rw [CreateFromString_ok env w f s h]; rfl
  | some r =>
    obtain ⟨e, left⟩ := r
    cases left with
    | none => rw [CreateFromString_err env w f s e h]
    | some c => rw [CreateFromString_left env w f s e c h]; rfl

theorem CreateFromString_other (env : Env) (w : World) (f s q : String) (hq : q ≠ f) :
    (CreateFromString env w f s).1.files q = w.files q := by
  cases h : env.createErr w f s with
  | none => rw [CreateFromString_ok env w f s h]; simp [World.write, hq]
  | some r =>
    obtain ⟨e, left⟩ := r
    cases left with
    | none => rw [CreateFromString_err env w f s e h]
    | some c => rw [CreateFromString_left env w f s e c h]; simp [World.write, hq]

theorem CreateFromString_ok_iff (env : Env) (w : World) (f s : String) :
    (CreateFromString env w f s).2 = none ↔ env.createErr w f s = none := by
  cases h : env.createErr w f s with
  | none => simp [CreateFromString_ok env w f s h]
  | some r =>
    obtain ⟨e, left⟩ := r
    cases left with
    | none => simp [CreateFromString_err env w f s e h]
    | some c => simp [CreateFromString_left env w f s e c h]

theorem osRemove_procs (env : Env) (w : World) (p : String) :
    (osRemove env w p).1.procs = w.procs := by
  unfold osRemove
  split
  · rfl
  · split <;> rfl

theorem osRemove_err (env : Env) (w : World) (p : String) (e : Error)
    (h : (osRemove env w p).2 = some e) : (osRemove env w p).1 = w := by
  unfold osRemove at h ⊢
  split
  · rfl
  · split
    · rename_i h1 h2
      simp [h1, h2] at h
    · rfl

theorem osRemove_ok (env : Env) (w : World) (p : String)
    (h : (osRemove env w p).2 = none) :
    w.fileExists p = true ∧
    (osRemove env w p).1 = w.delete p := by
  unfold osRemove at h ⊢
  split
  · rename_i e h1
    simp [h1] at h
  · split
    · rename_i h2
      exact ⟨h2, rfl⟩
    · rename_i h1 h2
      simp [h1, h2] at h

theorem osRemove_absent (env : Env) (w : World) (p : String)
    (h : w.fileExists p = false) :
    (osRemove env w p).1 = w ∧ (osRemove env w p).2 ≠ none := by
  unfold osRemove
  split
  · simp
  · simp [h]

theorem osRemove_present (env : Env) (w : World) (p : String)
    (hr : env.removeErr w p = none) (h : w.fileExists p = true) :
    osRemove env w p = (w.delete p, none) := by
  simp [osRemove, hr, h]

theorem UpdateIndex_files (m : ManagerDeb) (env : Env) (w : World) :
    (m.UpdateIndex env w).1.files = w.files := rfl

theorem AddRepo_cons_ok (m : ManagerDeb) (env : Env) (w : World) (alias_ u : String)
    (rest : List String)
    (h : env.createErr w (m.repository alias_) (repoLine m alias_ u) = none) :
    m.AddRepo env w alias_ (u :: rest) =
      ((m.UpdateIndex env (w.write (m.repository alias_) (repoLine m alias_ u))).1,
        .returned (m.UpdateIndex env (w.write (m.repository alias_) (repoLine m alias_ u))).2) := by
  have hc := CreateFromString_ok env w _ _ h
  simp only [repoLine] at hc
  simp [ManagerDeb.AddRepo, hc, repoLine]

theorem AddRepo_cons_err (m : ManagerDeb) (env : Env) (w : World) (alias_ u : String)
    (rest : List String) (e : Error)
    (h : (CreateFromString env w (m.repository alias_) (repoLine m alias_ u)).2 = some e) :
    m.AddRepo env w alias_ (u :: rest) =
      ((CreateFromString env w (m.repository alias_) (repoLine m alias_ u)).1,
        .returned (some e)) := by
  have hpair : CreateFromString env w (m.repository alias_) (repoLine m alias_ u) =
      ((CreateFromString env w (m.repository alias_) (repoLine m alias_ u)).1, some e) :=
    Prod.ext rfl h
  simp only [repoLine] at hpair
  simp only [ManagerDeb.AddRepo, List.getElem?_cons_zero, repoLine]
  rw [hpair]

/-- C5, refuted as stated: from a file system without the keyring file, a successful
`AddRepo` leaves the keyring file absent (only the `.list` file is written), and the
following `RemoveRepo` fails on the keyring file and leaves the `.list` file in place. -/
theorem AddRepo_keyring_counterexample :
    ((ManagerDeb.mk pathDeb).AddRepo okEnv emptyWorld "x" ["http://u"]).2 = .returned none ∧
    ((ManagerDeb.mk pathDeb).AddRepo okEnv emptyWorld "x" ["http://u"]).1.fileExists
      "/usr/share/keyrings/x-archive-keyring.gpg" = false ∧
    ((ManagerDeb.mk pathDeb).RemoveRepo okEnv
      ((ManagerDeb.mk pathDeb).AddRepo okEnv emptyWorld "x" ["http://u"]).1 "x").2 ≠ none ∧
    ((ManagerDeb.mk pathDeb).RemoveRepo okEnv
      ((ManagerDeb.mk pathDeb).AddRepo okEnv emptyWorld "x" ["http://u"]).1 "x").1.fileExists
      "/etc/apt/sources.list.d/x.list" = true := by
  decide

/-- C5, amended: when every external command succeeds and no file operation is refused,
after `AddRepo(alias, url)` the `.list` file exists and the keyring file exists exactly
when it existed before the call; a following `RemoveRepo(alias)` succeeds and leaves both
files absent when the keyring file existed, and otherwise fails and leaves the `.list`
file in place. -/
theorem AddRepo_RemoveRepo_roundtrip (m : ManagerDeb) (env : Env) (w : World)
    (alias_ u : String) (rest : List String)
    (hc : ∀ w p c, env.createErr w p c = none)
    (hr : ∀ w p, env.removeErr w p = none)
    (hx : ∀ w inv, env.CheckStderr (env.exec w inv).stderr (env.exec w inv).err = none) :
    (m.AddRepo env w alias_ (u :: rest)).2 = .returned none ∧
    (m.AddRepo env w alias_ (u :: rest)).1.fileExists (m.repository alias_) = true ∧
    (m.AddRepo env w alias_ (u :: rest)).1.fileExists (m.keyring alias_) =
      w.fileExists (m.keyring alias_) ∧
    (w.fileExists (m.keyring alias_) = true →
      (m.RemoveRepo env (m.AddRepo env w alias_ (u :: rest)).1 alias_).2 = none ∧
      (m.RemoveRepo env (m.AddRepo env w alias_ (u :: rest)).1 alias_).1.fileExists
        (m.keyring alias_) = false ∧
      (m.RemoveRepo env (m.AddRepo env w alias_ (u :: rest)).1 alias_).1.fileExists
        (m.repository alias_) = false) ∧
    (w.fileExists (m.keyring alias_) = false →
      (m.RemoveRepo env (m.AddRepo env w alias_ (u :: rest)).1 alias_).2 ≠ none ∧
      (m.RemoveRepo env (m.AddRepo env w alias_ (u :: rest)).1 alias_).1.fileExists
        (m.repository alias_) = true) := by
  have hne := keyring_ne_repository m alias_
  have hadd := AddRepo_cons_ok m env w alias_ u rest (hc _ _ _)
  have hui : ∀ w1, (m.UpdateIndex env w1).2 = none := fun w1 => hx w1 _
  have hk : (m.AddRepo env w alias_ (u :: rest)).1.fileExists (m.keyring alias_) =
      w.fileExists (m.keyring alias_) := by
    rw [hadd]
    simp [World.fileExists, World.write, UpdateIndex_files, hne]
  have hl : (m.AddRepo env w alias_ (u :: rest)).1.fileExists (m.repository alias_) = true := by
    rw [hadd]
    simp [World.fileExists, World.write, UpdateIndex_files]
  refine ⟨by rw [hadd]; simp [hui], hl, hk, ?_, ?_⟩
  · intro hex
    generalize m.AddRepo env w alias_ (u :: rest) = r at hk hl ⊢
    have h1 := osRemove_present env r.1 (m.keyring alias_) (hr _ _) (hk.trans hex)
    have h2 := osRemove_present env (r.1.delete (m.keyring alias_))
      (m.repository alias_) (hr _ _)
      (by
        have := hl
        simp only [World.fileExists, World.delete] at this ⊢
        simpa [Ne.symm hne] using this)
    simp only [ManagerDeb.RemoveRepo, h1, h2]
    refine ⟨hui _, ?_, ?_⟩ <;> simp [World.fileExists, World.delete, UpdateIndex_files, hne]
  · intro hex
    generalize m.AddRepo env w alias_ (u :: rest) = r at hk hl ⊢
    have h1 := osRemove_absent env r.1 (m.keyring alias_) (hk.trans hex)
    obtain ⟨e, he⟩ := Option.ne_none_iff_exists'.mp h1.2
    have hpair : osRemove env r.1 (m.keyring alias_) = (r.1, some e) :=
      Prod.ext h1.1 he
    simp [ManagerDeb.RemoveRepo, hpair, hl]

/-- Witness of the amended C5: the round trip from a world that holds the keyring file
of the alias `x`, and from the empty world. -/
theorem AddRepo_RemoveRepo_roundtrip_witness :
    keyringWorld.fileExists ((ManagerDeb.mk pathDeb).keyring "x") = true ∧
    ((ManagerDeb.mk pathDeb).RemoveRepo okEnv
      ((ManagerDeb.mk pathDeb).AddRepo okEnv keyringWorld "x" ["http://u"]).1 "x").1.fileExists
        ((ManagerDeb.mk pathDeb).repository "x") = false ∧
    emptyWorld.fileExists ((ManagerDeb.mk pathDeb).keyring "x") = false ∧
    ((ManagerDeb.mk pathDeb).RemoveRepo okEnv
      ((ManagerDeb.mk pathDeb).AddRepo okEnv emptyWorld "x" ["http://u"]).1 "x").1.fileExists
        ((ManagerDeb.mk pathDeb).repository "x") = true :=
  ⟨by decide,
    ((AddRepo_RemoveRepo_roundtrip (ManagerDeb.mk pathDeb) okEnv keyringWorld "x" "http://u" []
      (fun _ _ _ => rfl) (fun _ _ => rfl) (fun _ _ => rfl)).2.2.2.1 (by decide)).2.2,
    by decide,
    ((AddRepo_RemoveRepo_roundtrip (ManagerDeb.mk pathDeb) okEnv emptyWorld "x" "http://u" []
      (fun _ _ _ => rfl) (fun _ _ => rfl) (fun _ _ => rfl)).2.2.2.2 (by decide)).2⟩

/-- C7, refuted as stated: with a creation that opens the `.list` file and then fails
to write it, the first step of `AddRepo` fails, no later step is run, and yet the state
has changed: the `.list` file that held `deb` is left truncated. -/
theorem failed_creation_counterexample :
    (CreateFromString fullDiskEnv repoWorld "/etc/apt/sources.list.d/x.list"
      (repoLine (ManagerDeb.mk pathDeb) "x" "http://u")).2 = some "no space left on device" ∧
    ((ManagerDeb.mk pathDeb).AddRepo fullDiskEnv repoWorld "x" ["http://u"]).2 =
      .returned (some "no space left on device") ∧
    ((ManagerDeb.mk pathDeb).AddRepo fullDiskEnv repoWorld "x" ["http://u"]).1.procs = [] ∧
    repoWorld.files "/etc/apt/sources.list.d/x.list" = some "deb" ∧
    ((ManagerDeb.mk pathDeb).AddRepo fullDiskEnv repoWorld "x" ["http://u"]).1.files
      "/etc/apt/sources.list.d/x.list" = some "" := by
  decide

/-- C7, amended: no rollback in `AddRepo` and `RemoveRepo`.  If the first step of
`AddRepo` fails, its error is returned, no process is started, every file other than the
`.list` file is as before, and the world is exactly what the failed creation left (the
world as it was when the creation left nothing).  If the first step of `RemoveRepo`
fails, its error is returned, no later step is run and the world is unchanged.  If
`UpdateIndex` fails after `AddRepo` wrote the `.list` file, that error is returned and
the `.list` file exists.  If removing the `.list` file fails after `RemoveRepo` removed
the keyring file, that error is returned, no process is started and the keyring file
stays absent; if the final `UpdateIndex` fails, that error is returned and both files
stay absent. -/
theorem no_rollback (m : ManagerDeb) (env : Env) (w : World) (alias_ : String) :
    (∀ (u : String) (rest : List String) (e : Error),
      (CreateFromString env w (m.repository alias_) (repoLine m alias_ u)).2 = some e →
      (m.AddRepo env w alias_ (u :: rest)).2 = .returned (some e) ∧
      (m.AddRepo env w alias_ (u :: rest)).1.procs = w.procs ∧
      (∀ q : String, q ≠ m.repository alias_ →
        (m.AddRepo env w alias_ (u :: rest)).1.files q = w.files q) ∧
      (m.AddRepo env w alias_ (u :: rest)).1 =
        (CreateFromString env w (m.repository alias_) (repoLine m alias_ u)).1 ∧
      (env.createErr w (m.repository alias_) (repoLine m alias_ u) = some (e, none) →
        m.AddRepo env w alias_ (u :: rest) = (w, .returned (some e)))) ∧
    (∀ (u : String) (rest : List String) (e : Error),
      (CreateFromString env w (m.repository alias_) (repoLine m alias_ u)).2 = none →
      (m.UpdateIndex env
        (CreateFromString env w (m.repository alias_) (repoLine m alias_ u)).1).2 = some e →
      (m.AddRepo env w alias_ (u :: rest)).2 = .returned (some e) ∧
      (m.AddRepo env w alias_ (u :: rest)).1.files (m.repository alias_) =
        some (repoLine m alias_ u) ∧
      (m.AddRepo env w alias_ (u :: rest)).1.fileExists (m.repository alias_) = true) ∧
    (∀ e : Error, (osRemove env w (m.keyring alias_)).2 = some e →
      m.RemoveRepo env w alias_ = (w, some e)) ∧
    (∀ e : Error, (osRemove env w (m.keyring alias_)).2 = none →
      (osRemove env (osRemove env w (m.keyring alias_)).1 (m.repository alias_)).2 = some e →
      (m.RemoveRepo env w alias_).2 = some e ∧
      (m.RemoveRepo env w alias_).1.procs = w.procs ∧
      (m.RemoveRepo env w alias_).1.fileExists (m.keyring alias_) = false) ∧
    (∀ e : Error, (osRemove env w (m.keyring alias_)).2 = none →
      (osRemove env (osRemove env w (m.keyring alias_)).1 (m.repository alias_)).2 = none →
      (m.UpdateIndex env
        (osRemove env (osRemove env w (m.keyring alias_)).1 (m.repository alias_)).1).2
          = some e →
      (m.RemoveRepo env w alias_).2 = some e ∧
      (m.RemoveRepo env w alias_).1.fileExists (m.keyring alias_) = false ∧
      (m.RemoveRepo env w alias_).1.fileExists (m.repository alias_) = false) := by
  have hne := keyring_ne_repository m alias_
  refine ⟨?_, ?_, ?_, ?_, ?_⟩
  · intro u rest e h
    have hadd := AddRepo_cons_err m env w alias_ u rest e h
    refine ⟨by rw [hadd], ?_, ?_, by rw [hadd], ?_⟩
    · rw [hadd]
      exact CreateFromString_procs env w _ _
    · intro q hq
      rw [hadd]
      exact CreateFromString_other env w _ _ q hq
    · intro hce
      rw [hadd, CreateFromString_err env w _ _ e hce]
  · intro u rest e h hu
    have hce := (CreateFromString_ok_iff env w _ _).mp h
    rw [CreateFromString_ok env w _ _ hce] at hu
    rw [AddRepo_cons_ok m env w alias_ u rest hce]
    refine ⟨by simpa using hu, ?_, ?_⟩ <;>
      simp [World.fileExists, World.write, UpdateIndex_files]
  · intro e h
    have hw := osRemove_err env w _ e h
    have hpair : osRemove env w (m.keyring alias_) = (w, some e) := Prod.ext hw h
    simp [ManagerDeb.RemoveRepo, hpair]
  · intro e h1 h2
    have hk := (osRemove_ok env w _ h1).2
    have hpair1 : osRemove env w (m.keyring alias_) = (w.delete (m.keyring alias_), none) :=
      Prod.ext hk h1
    rw [hk] at h2
    have hw2 := osRemove_err env _ _ e h2
    have hpair2 : osRemove env (w.delete (m.keyring alias_)) (m.repository alias_) =
        (w.delete (m.keyring alias_), some e) := Prod.ext hw2 h2
    simp only [ManagerDeb.RemoveRepo, hpair1, hpair2]
    simp [World.delete, World.fileExists]
  · intro e h1 h2 h3
    have hk := (osRemove_ok env w _ h1).2
    have hpair1 : osRemove env w (m.keyring alias_) = (w.delete (m.keyring alias_), none) :=
      Prod.ext hk h1
    rw [hk] at h2 h3
    have hl := (osRemove_ok env _ _ h2).2
    have hpair2 : osRemove env (w.delete (m.keyring alias_)) (m.repository alias_) =
        ((w.delete (m.keyring alias_)).delete (m.repository alias_), none) := Prod.ext hl h2
    rw [hl] at h3
    simp only [ManagerDeb.RemoveRepo, hpair1, hpair2]
    refine ⟨h3, ?_, ?_⟩ <;> simp [World.fileExists, World.delete, UpdateIndex_files, hne]

/-- Witness of the amended C7: a refused creation, a creation that fails after
truncating the `.list` file, a failing `apt-get update` after the write, a missing
keyring file, a missing `.list` file after the keyring file was removed, and a failing
`apt-get update` after both removals. -/
theorem no_rollback_witness :
    (ManagerDeb.mk pathDeb).AddRepo roEnv emptyWorld "x" ["http://u"] =
      (emptyWorld, .returned (some "read-only file system")) ∧
    (((ManagerDeb.mk pathDeb).AddRepo fullDiskEnv repoWorld "x" ["http://u"]).2 =
        .returned (some "no space left on device") ∧
      ((ManagerDeb.mk pathDeb).AddRepo fullDiskEnv repoWorld "x" ["http://u"]).1.procs =
        repoWorld.procs) ∧
    (((ManagerDeb.mk pathDeb).AddRepo failEnv emptyWorld "x" ["http://u"]).2 =
        .returned (some "exit status 1") ∧
      ((ManagerDeb.mk pathDeb).AddRepo failEnv emptyWorld "x" ["http://u"]).1.files
        ((ManagerDeb.mk pathDeb).repository "x") =
        some (repoLine (ManagerDeb.mk pathDeb) "x" "http://u") ∧
      ((ManagerDeb.mk pathDeb).AddRepo failEnv emptyWorld "x" ["http://u"]).1.fileExists
        ((ManagerDeb.mk pathDeb).repository "x") = true) ∧
    (ManagerDeb.mk pathDeb).RemoveRepo okEnv emptyWorld "x" = (emptyWorld,
      some "remove /usr/share/keyrings/x-archive-keyring.gpg: no such file or directory") ∧
    (((ManagerDeb.mk pathDeb).RemoveRepo okEnv keyringWorld "x").2 =
        some "remove /etc/apt/sources.list.d/x.list: no such file or directory" ∧
      ((ManagerDeb.mk pathDeb).RemoveRepo okEnv keyringWorld "x").1.procs =
        keyringWorld.procs ∧
      ((ManagerDeb.mk pathDeb).RemoveRepo okEnv keyringWorld "x").1.fileExists
        ((ManagerDeb.mk pathDeb).keyring "x") = false) ∧
    (((ManagerDeb.mk pathDeb).RemoveRepo failEnv repoWorld "x").2 = some "exit status 1" ∧
      ((ManagerDeb.mk pathDeb).RemoveRepo failEnv repoWorld "x").1.fileExists
        ((ManagerDeb.mk pathDeb).keyring "x") = false ∧
      ((ManagerDeb.mk pathDeb).RemoveRepo failEnv repoWorld "x").1.fileExists
        ((ManagerDeb.mk pathDeb).repository "x") = false) :=
  ⟨((no_rollback (ManagerDeb.mk pathDeb) roEnv emptyWorld "x").1 "http://u" []
      "read-only file system" (by decide)).2.2.2.2 rfl,
    ⟨((no_rollback (ManagerDeb.mk pathDeb) fullDiskEnv repoWorld "x").1 "http://u" []
        "no space left on device" (by decide)).1,
      ((no_rollback (ManagerDeb.mk pathDeb) fullDiskEnv repoWorld "x").1 "http://u" []
        "no space left on device" (by decide)).2.1⟩,
    (no_rollback (ManagerDeb.mk pathDeb) failEnv emptyWorld "x").2.1 "http://u" []
      "exit status 1" (by decide) (by decide),
    (no_rollback (ManagerDeb.mk pathDeb) okEnv emptyWorld "x").2.2.1
      "remove /usr/share/keyrings/x-archive-keyring.gpg: no such file or directory"
      (by decide),
    (no_rollback (ManagerDeb.mk pathDeb) okEnv keyringWorld "x").2.2.2.1
      "remove /etc/apt/sources.list.d/x.list: no such file or directory"
      (by decide) (by decide),
    (no_rollback (ManagerDeb.mk pathDeb) failEnv repoWorld "x").2.2.2.2
      "exit status 1" (by decide) (by decide) (by decide)⟩

/-- C10: `AddRepo` aborts with the index-out-of-range panic exactly for the empty URL list,
and then leaves the world as it was (nothing is written, nothing is run).  For a
non-empty URL list only the first URL is used: the call equals the call with that URL
alone, and when the creation is not refused the file
`/etc/apt/sources.list.d/<alias>.list` holds exactly the line
`deb [signed-by=/usr/share/keyrings/<alias>-archive-keyring.gpg] <first URL> main/`
followed by a newline, every other file being untouched. -/
theorem AddRepo_first_url (m : ManagerDeb) (env : Env) (w : World) (alias_ : String) :
    (∀ url : List String,
      (∃ msg, (m.AddRepo env w alias_ url).2 = .panicked msg) ↔ url = []) ∧
    (m.AddRepo env w alias_ []).1 = w ∧
    (∀ (u : String) (rest : List String),
      m.AddRepo env w alias_ (u :: rest) = m.AddRepo env w alias_ [u]) ∧
    m.repository alias_ = "/etc/apt/sources.list.d/" ++ alias_ ++ ".list" ∧
    (∀ u : String, repoLine m alias_ u =
      "deb [signed-by=/usr/share/keyrings/" ++ alias_ ++ "-archive-keyring.gpg] " ++ u ++
        " main/\n") ∧
    (∀ (u : String) (rest : List String),
      env.createErr w (m.repository alias_) (repoLine m alias_ u) = none →
      (m.AddRepo env w alias_ (u :: rest)).1.files (m.repository alias_) =
        some (repoLine m alias_ u) ∧
      ∀ q : String, q ≠ m.repository alias_ →
        (m.AddRepo env w alias_ (u :: rest)).1.files q = w.files q) := by
  refine ⟨?_, rfl, fun _ _ => by simp [ManagerDeb.AddRepo], rfl, ?_, ?_⟩
  · intro url
    cases url with
    | nil => simp [ManagerDeb.AddRepo]
    | cons u rest =>
      cases hce : (CreateFromString env w (m.repository alias_) (repoLine m alias_ u)).2 with
      | none =>
        simp [AddRepo_cons_ok m env w alias_ u rest ((CreateFromString_ok_iff env w _ _).mp hce)]
      | some e => simp [AddRepo_cons_err m env w alias_ u rest e hce]
  · intro u
    apply String.ext
    simp [repoLine, ManagerDeb.keyring, String.data_append]
  · intro u rest hce
    rw [AddRepo_cons_ok m env w alias_ u rest hce]
    refine ⟨by simp [World.write, UpdateIndex_files], ?_⟩
    intro q hq
    simp [World.write, UpdateIndex_files, hq]

/-- Witness of C10: two URLs for the alias `x`; the `.list` file holds the line built
from the first one. -/
theorem AddRepo_first_url_witness :
    okEnv.createErr emptyWorld ((ManagerDeb.mk pathDeb).repository "x")
      (repoLine (ManagerDeb.mk pathDeb) "x" "http://u") = none ∧
    ((ManagerDeb.mk pathDeb).AddRepo okEnv emptyWorld "x" ["http://u", "http://v"]).1.files
      ((ManagerDeb.mk pathDeb).repository "x") =
      some (repoLine (ManagerDeb.mk pathDeb) "x" "http://u") ∧
    repoLine (ManagerDeb.mk pathDeb) "x" "http://u" =
      "deb [signed-by=/usr/share/keyrings/x-archive-keyring.gpg] http://u main/\n" :=
  ⟨by decide,
    ((AddRepo_first_url (ManagerDeb.mk pathDeb) okEnv emptyWorld "x").2.2.2.2.2
      "http://u" ["http://v"] (by decide)).1,
    by decide⟩

/-! ## The group helper -/

theorem foundGid_iff (gid : String) : ∀ groups : List String,
    foundGid gid groups = true ↔ gid ∈ groups
  | [] => by simp [foundGid]
  | v :: rest => by
    by_cases h : v = gid
    · simp [foundGid, h]
    · have h2 : ¬ gid = v := fun e => h e.symm
      simp [foundGid, h, h2, foundGid_iff gid rest]

/-- C6: on Linux, when the real user and the group are found and the group's id is among
the user's group ids, `AddGroupFromCmd` starts no external process, leaves the world as
it is, and returns the empty message and no error; a second call gives the same result. -/
theorem AddGroupFromCmd_member (env : Env) (db : UserEnv) (w : World) (group username : String)
    (grp : Group) (usr : User) (groups : List String)
    (h1 : db.RealUser .SysLinux = .ok username)
    (h2 : db.LookupGroup group = .ok grp)
    (h3 : db.Lookup username = .ok usr)
    (h4 : db.GroupIds usr = .ok groups)
    (h5 : grp.Gid ∈ groups) :
    AddGroupFromCmd env db w .SysLinux group = (w, .returned ("", none)) ∧
    (AddGroupFromCmd env db w .SysLinux group).1.procs = w.procs ∧
    AddGroupFromCmd env db (AddGroupFromCmd env db w .SysLinux group).1 .SysLinux group =
      AddGroupFromCmd env db w .SysLinux group := by
  have hf : foundGid grp.Gid groups = true := (foundGid_iff _ _).mpr h5
  have h : AddGroupFromCmd env db w .SysLinux group = (w, .returned ("", none)) := by
    simp [AddGroupFromCmd, h1, h2, h3, h4, hf]
  refine ⟨h, by rw [h], ?_⟩
  rw [h]
  exact h

/-- Witness of C6: `alice` is already in `sudo`. -/
theorem AddGroupFromCmd_member_witness :
    ("27" ∈ ["100", "27"]) ∧
    AddGroupFromCmd failEnv aliceDb emptyWorld .SysLinux "sudo" =
      (emptyWorld, .returned ("", none)) :=
  ⟨by decide,
    (AddGroupFromCmd_member failEnv aliceDb emptyWorld "sudo" "alice" ⟨"27", "sudo"⟩
      ⟨"1000", "100", "alice"⟩ ["100", "27"] rfl (by simp [aliceDb]) (by simp [aliceDb]) rfl (by decide)).1⟩

theorem AddGroupFromCmd_nonmember (env : Env) (db : UserEnv) (w : World)
    (group username : String) (grp : Group) (usr : User) (groups : List String)
    (h1 : db.RealUser .SysLinux = .ok username)
    (h2 : db.LookupGroup group = .ok grp)
    (h3 : db.Lookup username = .ok usr)
    (h4 : db.GroupIds usr = .ok groups)
    (hf : foundGid grp.Gid groups = false) :
    AddGroupFromCmd env db w .SysLinux group =
      (w.started ⟨"usermod", ["-aG", group, usr.Username]⟩,
        match (env.exec w ⟨"usermod", ["-aG", group, usr.Username]⟩).stderr,
          (env.exec w ⟨"usermod", ["-aG", group, usr.Username]⟩).err with
        | some s, _ => .returned ("", some s)
        | none, some e => .returned ("", some e)
        | none, none =>
          .returned ("the user " ++ db.quote username ++ " has been added to the group " ++
            db.quote group ++ ".
You MUST reboot the system.
", none)) := by
  simp only [AddGroupFromCmd, h1, h2, h3, h4, hf, Exec, World.run]
  generalize env.exec w ⟨"usermod", ["-aG", group, usr.Username]⟩ = r
  rcases r with ⟨so, _ | se, _ | er⟩ <;> rfl

/-- C9, refuted as stated: `alice` is not in `docker`, `usermod` is run and fails, and
the returned message is empty. -/
theorem usermod_failure_counterexample :
    (AddGroupFromCmd failEnv aliceDb emptyWorld .SysLinux "docker").1.procs =
      [⟨"usermod", ["-aG", "docker", "alice"]⟩] ∧
    (AddGroupFromCmd failEnv aliceDb emptyWorld .SysLinux "docker").2 =
      .returned ("", some "exit status 1") := by
  decide

/-- C9, amended: on Linux, when the user is not yet a member of the group,
`AddGroupFromCmd` runs `usermod -aG <group> <user>`; when that command succeeds (no
standard error, no failure) the returned message is non-empty, names the real user and
the group (each formatted with `%q`) and states that the system must be rebooted; when
the command writes to standard error or fails, the message is empty and the error is
returned. -/
theorem AddGroupFromCmd_message (env : Env) (db : UserEnv) (w : World) (group username : String)
    (grp : Group) (usr : User) (groups : List String)
    (h1 : db.RealUser .SysLinux = .ok username)
    (h2 : db.LookupGroup group = .ok grp)
    (h3 : db.Lookup username = .ok usr)
    (h4 : db.GroupIds usr = .ok groups)
    (h5 : grp.Gid ∉ groups) :
    (AddGroupFromCmd env db w .SysLinux group).1.procs =
      w.procs ++ [⟨"usermod", ["-aG", group, usr.Username]⟩] ∧
    ((env.exec w ⟨"usermod", ["-aG", group, usr.Username]⟩).stderr = none →
      (env.exec w ⟨"usermod", ["-aG", group, usr.Username]⟩).err = none →
      (AddGroupFromCmd env db w .SysLinux group).2 =
        .returned ("the user " ++ db.quote username ++ " has been added to the group " ++
          db.quote group ++ ".\nYou MUST reboot the system.\n", none) ∧
      "the user " ++ db.quote username ++ " has been added to the group " ++
          db.quote group ++ ".\nYou MUST reboot the system.\n" ≠ "") ∧
    (∀ s : String, (env.exec w ⟨"usermod", ["-aG", group, usr.Username]⟩).stderr = some s →
      (AddGroupFromCmd env db w .SysLinux group).2 = .returned ("", some s)) ∧
    (∀ e : Error, (env.exec w ⟨"usermod", ["-aG", group, usr.Username]⟩).stderr = none →
      (env.exec w ⟨"usermod", ["-aG", group, usr.Username]⟩).err = some e →
      (AddGroupFromCmd env db w .SysLinux group).2 = .returned ("", some e)) := by
  have hf : foundGid grp.Gid groups = false := by
    cases hb : foundGid grp.Gid groups with
    | false => rfl
    | true => exact absurd ((foundGid_iff _ _).mp hb) h5
  rw [AddGroupFromCmd_nonmember env db w group username grp usr groups h1 h2 h3 h4 hf]
  refine ⟨rfl, ?_, ?_, ?_⟩
  · intro hs he
    refine ⟨by simp [hs, he], ?_⟩
    intro h
    have hl := congrArg String.length h
    simp [String.length_append] at hl
    exact absurd hl.1.1.1.1 (by decide)
  · intro s hs
    simp [hs]
  · intro e hs he
    simp [hs, he]

/-- Witness of the amended C9: `alice` is added to `docker` by a succeeding `usermod`. -/
theorem AddGroupFromCmd_message_witness :
    ("999" ∉ ["100", "27"]) ∧
    (AddGroupFromCmd okEnv aliceDb emptyWorld .SysLinux "docker").1.procs =
      emptyWorld.procs ++ [⟨"usermod", ["-aG", "docker", "alice"]⟩] ∧
    (AddGroupFromCmd okEnv aliceDb emptyWorld .SysLinux "docker").2 =
      .returned ("the user " ++ aliceDb.quote "alice" ++ " has been added to the group " ++
        aliceDb.quote "docker" ++ ".\nYou MUST reboot the system.\n", none) :=
  ⟨by decide,
    (AddGroupFromCmd_message okEnv aliceDb emptyWorld "docker" "alice" ⟨"999", "docker"⟩
      ⟨"1000", "100", "alice"⟩ ["100", "27"] rfl (by simp [aliceDb]) (by simp [aliceDb]) rfl (by decide)).1,
    ((AddGroupFromCmd_message okEnv aliceDb emptyWorld "docker" "alice" ⟨"999", "docker"⟩
      ⟨"1000", "100", "alice"⟩ ["100", "27"] rfl (by simp [aliceDb]) (by simp [aliceDb]) rfl (by decide)).2.1
      rfl rfl).1⟩

end Osutil
